import Mathlib

/-!
Shallow embedding of the CRUD routers of the Leaning_Flasx repository
(src/routers/v1/senders.py, src/routers/v1/vehicles.py,
src/routers/v1/stations_router.py, src/routers/v1/delivery_staffs_router.py).

All five routers implement the same algorithm over a module-level insertion
ordered dictionary `<entity>_db : dict[int, dict]` and an integer counter
`next_id` starting at 1.  We embed the senders router (most claims cite it)
and the vehicles router (cited for uniqueness and update atomicity); the
stations and delivery-staff routers are textually identical to senders up to
field renaming.

Modelling conventions:
* a Python `datetime.now()` call is an abstract tick `now : Nat` supplied as
  an explicit argument to each handler that calls it;
* the insertion-ordered dict is a `List (Nat × Rec)` in insertion order:
  inserting a fresh key appends, assigning to an existing key rewrites the
  entry in place, `del` filters the entry out — exactly CPython dict order;
* `raise HTTPException(status_code, detail)` becomes returning
  `Except.error ⟨status_code, detail⟩` with the state unchanged from the
  point of the raise;
* update payload fields are `Option`-wrapped: `none` is "field not set in
  the request body" (Pydantic `exclude_unset` drops it), `some v` is "field
  explicitly present with value v".  For fields that are `Optional[str]` in
  the stored record the present value is itself an `Option String`, so an
  explicit JSON `null` is representable.  For required string fields
  (`email`, `license_plate`, `name`) an explicit JSON `null` is excluded
  from the model: it would make the final `Model(**record)` response
  construction fail Pydantic validation, which is a framework-level type
  error outside the router logic being verified.
-/

/-- Mirror of `fastapi.HTTPException`: a status code plus a detail string. -/
structure HTTPError where
  status : Nat
  detail : String
deriving Repr, DecidableEq

/-- Clamp one endpoint of a Python slice `l[a:b]` to `[0, n]`, where `n` is
the list length: a negative index counts from the end and is then clamped
below by 0; a nonnegative index is clamped above by `n`. -/
def pyIndex (n : Nat) (i : Int) : Nat :=
  if i < 0 then ((n : Int) + i).toNat else min i.toNat n

/-- Python slice `l[a:b]` (step 1) on a Lean list. -/
def pySlice (l : List α) (a b : Int) : List α :=
  (l.take (pyIndex l.length b)).drop (pyIndex l.length a)

/-- Python `db[k]` / `k in db` on the insertion-ordered dict model. -/
def dbLookup : List (Nat × α) → Nat → Option α
  | [], _ => none
  | p :: rest, k => if p.1 = k then some p.2 else dbLookup rest k

/-- Python `db[k] = v` for a key already present: the entry is rewritten in
place, keeping its position in insertion order. -/
def dbReplace (db : List (Nat × α)) (k : Nat) (v : α) : List (Nat × α) :=
  db.map fun p => (p.1, if p.1 = k then v else p.2)

/-- Python `del db[k]`. -/
def dbDelete (db : List (Nat × α)) (k : Nat) : List (Nat × α) :=
  db.filter fun p => !(p.1 == k)

/-! ### Senders (src/routers/v1/senders.py) -/

/-- One stored sender record: the dict built in `create_sender` (lines
99-104), i.e. the fields of Pydantic model `Sender` = `SenderBase` plus
`id`/`created_at`/`updated_at`. -/
structure SenderRec where
  id : Nat
  created_at : Nat
  updated_at : Nat
  name : String
  email : String
  phone : Option String
  address : Option String
  is_active : Bool
deriving Repr, DecidableEq

/-- Request body of POST /senders: Pydantic model `SenderCreate` =
`SenderBase` (name, email required; phone, address optional defaulting to
None; is_active defaulting to True). -/
structure SenderCreate where
  name : String
  email : String
  phone : Option String := none
  address : Option String := none
  is_active : Bool := true
deriving Repr, DecidableEq

/-- Request body of PUT/PATCH /senders/\x7bid\x7d: Pydantic model
`SenderUpdate`, every field optional; the outer `Option` is "set in the
request body or not" (what `model_dump(exclude_unset=True)` keeps). -/
structure SenderUpdate where
  name : Option String := none
  email : Option String := none
  phone : Option (Option String) := none
  address : Option (Option String) := none
  is_active : Option Bool := none
deriving Repr, DecidableEq

/-- The module-level mutable state of senders.py: `senders_db` (insertion
ordered) and `next_id`. -/
structure SendersState where
  senders_db : List (Nat × SenderRec)
  next_id : Nat
deriving Repr, DecidableEq

/-- The state at import time: `senders_db = {}`, `next_id = 1`. -/
def initSenders : SendersState := { senders_db := [], next_id := 1 }

/-- The filtering step of `get_senders` (lines 56-60): all values of the
dict, restricted to the `is_active` match when the filter is given. -/
def filteredSenders (st : SendersState) (is_active : Option Bool) : List SenderRec :=
  match is_active with
  | some b => (st.senders_db.map Prod.snd).filter fun s => s.is_active == b
  | none => st.senders_db.map Prod.snd

/-- GET /senders (lines 50-65): filter by `is_active` when given, then the
Python slice `senders[skip : skip + limit]`.  The handler raises nothing. -/
def get_senders (st : SendersState) (skip limit : Int) (is_active : Option Bool) :
    Except HTTPError (List SenderRec) :=
  .ok (pySlice (filteredSenders st is_active) skip (skip + limit))

/-- GET /senders/\x7bid\x7d (lines 74-79). -/
def get_sender (st : SendersState) (sender_id : Nat) : Except HTTPError SenderRec :=
  match dbLookup st.senders_db sender_id with
  | none => .error ⟨404, "Sender not found"⟩
  | some s => .ok s

/-- POST /senders (lines 89-110): duplicate-email scan over all stored
records, then store `{id, created_at, updated_at, **input}` under `next_id`
and increment `next_id`. -/
def create_sender (st : SendersState) (now : Nat) (sender : SenderCreate) :
    Except HTTPError SenderRec × SendersState :=
  if (st.senders_db.map Prod.snd).any (fun ex => ex.email == sender.email) then
    (.error ⟨400, "Email already registered"⟩, st)
  else
    let r : SenderRec :=
      { id := st.next_id, created_at := now, updated_at := now,
        name := sender.name, email := sender.email, phone := sender.phone,
        address := sender.address, is_active := sender.is_active }
    (.ok r, { senders_db := st.senders_db ++ [(st.next_id, r)], next_id := st.next_id + 1 })

/-- `sender_update.model_dump(exclude_unset=True)` is empty iff no field was
set in the request body. -/
def SenderUpdate.isEmpty (u : SenderUpdate) : Bool :=
  u.name.isNone && u.email.isNone && u.phone.isNone && u.address.isNone && u.is_active.isNone

/-- `existing_sender.update(update_data)` (line 135): overwrite exactly the
fields set in the request body. -/
def applySenderUpdate (r : SenderRec) (u : SenderUpdate) : SenderRec :=
  { r with
    name := u.name.getD r.name,
    email := u.email.getD r.email,
    phone := u.phone.getD r.phone,
    address := u.address.getD r.address,
    is_active := u.is_active.getD r.is_active }

/-- The guard `if sender_update.email:` followed by the duplicate scan
(lines 127-130): Python truthiness on a string is "not None and nonempty".
The scan compares every record stored under a different key. -/
def senderDupEmail (st : SendersState) (sender_id : Nat) (u : SenderUpdate) : Bool :=
  match u.email with
  | some e => e != "" && st.senders_db.any fun p => p.1 != sender_id && p.2.email == e
  | none => false

/-- PUT /senders/\x7bid\x7d (lines 119-138); PATCH (lines 147-149) calls it
unchanged.  404 when the key is absent; 400 on the truthy-email duplicate
scan, raised before any mutation; then merge the set fields and refresh
`updated_at` only when at least one field was set. -/
def update_sender (st : SendersState) (now : Nat) (sender_id : Nat) (u : SenderUpdate) :
    Except HTTPError SenderRec × SendersState :=
  match dbLookup st.senders_db sender_id with
  | none => (.error ⟨404, "Sender not found"⟩, st)
  | some existing =>
    if senderDupEmail st sender_id u then
      (.error ⟨400, "Email already registered"⟩, st)
    else if u.isEmpty then
      (.ok existing, st)
    else
      let r := { applySenderUpdate existing u with updated_at := now }
      (.ok r, { st with senders_db := dbReplace st.senders_db sender_id r })

/-- DELETE /senders/\x7bid\x7d (lines 158-164). -/
def delete_sender (st : SendersState) (sender_id : Nat) :
    Except HTTPError Unit × SendersState :=
  match dbLookup st.senders_db sender_id with
  | none => (.error ⟨404, "Sender not found"⟩, st)
  | some _ => (.ok (), { st with senders_db := dbDelete st.senders_db sender_id })

/-- POST /senders/\x7bid\x7d/activate (lines 173-181): set `is_active` to
True and refresh `updated_at` in place, return the stored record. -/
def activate_sender (st : SendersState) (now : Nat) (sender_id : Nat) :
    Except HTTPError SenderRec × SendersState :=
  match dbLookup st.senders_db sender_id with
  | none => (.error ⟨404, "Sender not found"⟩, st)
  | some r =>
    let r' := { r with is_active := true, updated_at := now }
    (.ok r', { st with senders_db := dbReplace st.senders_db sender_id r' })

/-- POST /senders/\x7bid\x7d/deactivate (lines 190-198). -/
def deactivate_sender (st : SendersState) (now : Nat) (sender_id : Nat) :
    Except HTTPError SenderRec × SendersState :=
  match dbLookup st.senders_db sender_id with
  | none => (.error ⟨404, "Sender not found"⟩, st)
  | some r =>
    let r' := { r with is_active := false, updated_at := now }
    (.ok r', { st with senders_db := dbReplace st.senders_db sender_id r' })

/-- One mutating request against the senders router. -/
inductive SenderOp where
  | create (now : Nat) (input : SenderCreate)
  | update (now : Nat) (sender_id : Nat) (u : SenderUpdate)
  | activate (now : Nat) (sender_id : Nat)
  | deactivate (now : Nat) (sender_id : Nat)
  | delete (sender_id : Nat)
deriving Repr, DecidableEq

/-- State reached after serving one mutating request (the response is
dropped; a failed request leaves the state as the handler left it). -/
def SenderOp.run (op : SenderOp) (st : SendersState) : SendersState :=
  match op with
  | .create now input => (create_sender st now input).2
  | .update now sender_id u => (update_sender st now sender_id u).2
  | .activate now sender_id => (activate_sender st now sender_id).2
  | .deactivate now sender_id => (deactivate_sender st now sender_id).2
  | .delete sender_id => (delete_sender st sender_id).2

/-- Serve a sequence of mutating requests in order. -/
def runSenderOps (st : SendersState) (ops : List SenderOp) : SendersState :=
  ops.foldl (fun s op => op.run s) st

/-- A state of the senders router reachable from import time by some
sequence of requests. -/
def SendersReachable (st : SendersState) : Prop :=
  ∃ ops : List SenderOp, runSenderOps initSenders ops = st

/-! ### Vehicles (src/routers/v1/vehicles.py)

Textually the same algorithm as senders.py with fields
license_plate/type/brand/color, uniqueness key `license_plate`, and error
details "Vehicle not found" / "License plate already exists". -/

/-- One stored vehicle record (dict built in `create_vehicle`, lines
99-104). -/
structure VehicleRec where
  id : Nat
  created_at : Nat
  updated_at : Nat
  license_plate : String
  type : Option String
  brand : Option String
  color : Option String
  is_active : Bool
deriving Repr, DecidableEq

/-- Request body of POST /vehicles: Pydantic model `VehicleCreate`. -/
structure VehicleCreate where
  license_plate : String
  type : Option String := none
  brand : Option String := none
  color : Option String := none
  is_active : Bool := true
deriving Repr, DecidableEq

/-- Request body of PUT/PATCH /vehicles/\x7bid\x7d: Pydantic model
`VehicleUpdate`. -/
structure VehicleUpdate where
  license_plate : Option String := none
  type : Option (Option String) := none
  brand : Option (Option String) := none
  color : Option (Option String) := none
  is_active : Option Bool := none
deriving Repr, DecidableEq

/-- The module-level mutable state of vehicles.py. -/
structure VehiclesState where
  vehicles_db : List (Nat × VehicleRec)
  next_id : Nat
deriving Repr, DecidableEq

/-- The state at import time: `vehicles_db = {}`, `next_id = 1`. -/
def initVehicles : VehiclesState := { vehicles_db := [], next_id := 1 }

/-- POST /vehicles (lines 89-110). -/
def create_vehicle (st : VehiclesState) (now : Nat) (vehicle : VehicleCreate) :
    Except HTTPError VehicleRec × VehiclesState :=
  if (st.vehicles_db.map Prod.snd).any (fun ex => ex.license_plate == vehicle.license_plate) then
    (.error ⟨400, "License plate already exists"⟩, st)
  else
    let r : VehicleRec :=
      { id := st.next_id, created_at := now, updated_at := now,
        license_plate := vehicle.license_plate, type := vehicle.type,
        brand := vehicle.brand, color := vehicle.color, is_active := vehicle.is_active }
    (.ok r, { vehicles_db := st.vehicles_db ++ [(st.next_id, r)], next_id := st.next_id + 1 })

/-- `vehicle_update.model_dump(exclude_unset=True)` is empty iff no field
was set in the request body. -/
def VehicleUpdate.isEmpty (u : VehicleUpdate) : Bool :=
  u.license_plate.isNone && u.type.isNone && u.brand.isNone && u.color.isNone && u.is_active.isNone

/-- `existing_vehicle.update(update_data)` (line 135). -/
def applyVehicleUpdate (r : VehicleRec) (u : VehicleUpdate) : VehicleRec :=
  { r with
    license_plate := u.license_plate.getD r.license_plate,
    type := u.type.getD r.type,
    brand := u.brand.getD r.brand,
    color := u.color.getD r.color,
    is_active := u.is_active.getD r.is_active }

/-- The guard `if vehicle_update.license_plate:` followed by the duplicate
scan (lines 127-130): Python truthiness on a string, so an explicitly
supplied empty plate skips the scan. -/
def vehicleDupPlate (st : VehiclesState) (vehicle_id : Nat) (u : VehicleUpdate) : Bool :=
  match u.license_plate with
  | some pl => pl != "" && st.vehicles_db.any fun p => p.1 != vehicle_id && p.2.license_plate == pl
  | none => false

/-- PUT /vehicles/\x7bid\x7d (lines 119-138); PATCH (lines 147-149) calls
it unchanged. -/
def update_vehicle (st : VehiclesState) (now : Nat) (vehicle_id : Nat) (u : VehicleUpdate) :
    Except HTTPError VehicleRec × VehiclesState :=
  match dbLookup st.vehicles_db vehicle_id with
  | none => (.error ⟨404, "Vehicle not found"⟩, st)
  | some existing =>
    if vehicleDupPlate st vehicle_id u then
      (.error ⟨400, "License plate already exists"⟩, st)
    else if u.isEmpty then
      (.ok existing, st)
    else
      let r := { applyVehicleUpdate existing u with updated_at := now }
      (.ok r, { st with vehicles_db := dbReplace st.vehicles_db vehicle_id r })

/-- DELETE /vehicles/\x7bid\x7d (lines 158-164). -/
def delete_vehicle (st : VehiclesState) (vehicle_id : Nat) :
    Except HTTPError Unit × VehiclesState :=
  match dbLookup st.vehicles_db vehicle_id with
  | none => (.error ⟨404, "Vehicle not found"⟩, st)
  | some _ => (.ok (), { st with vehicles_db := dbDelete st.vehicles_db vehicle_id })

/-- POST /vehicles/\x7bid\x7d/activate (lines 173-181). -/
def activate_vehicle (st : VehiclesState) (now : Nat) (vehicle_id : Nat) :
    Except HTTPError VehicleRec × VehiclesState :=
  match dbLookup st.vehicles_db vehicle_id with
  | none => (.error ⟨404, "Vehicle not found"⟩, st)
  | some r =>
    let r' := { r with is_active := true, updated_at := now }
    (.ok r', { st with vehicles_db := dbReplace st.vehicles_db vehicle_id r' })

/-- POST /vehicles/\x7bid\x7d/deactivate (lines 190-198). -/
def deactivate_vehicle (st : VehiclesState) (now : Nat) (vehicle_id : Nat) :
    Except HTTPError VehicleRec × VehiclesState :=
  match dbLookup st.vehicles_db vehicle_id with
  | none => (.error ⟨404, "Vehicle not found"⟩, st)
  | some r =>
    let r' := { r with is_active := false, updated_at := now }
    (.ok r', { st with vehicles_db := dbReplace st.vehicles_db vehicle_id r' })

/-- One mutating request against the vehicles router. -/
inductive VehicleOp where
  | create (now : Nat) (input : VehicleCreate)
  | update (now : Nat) (vehicle_id : Nat) (u : VehicleUpdate)
  | activate (now : Nat) (vehicle_id : Nat)
  | deactivate (now : Nat) (vehicle_id : Nat)
  | delete (vehicle_id : Nat)
deriving Repr, DecidableEq

/-- State reached after serving one mutating vehicle request. -/
def VehicleOp.run (op : VehicleOp) (st : VehiclesState) : VehiclesState :=
  match op with
  | .create now input => (create_vehicle st now input).2
  | .update now vehicle_id u => (update_vehicle st now vehicle_id u).2
  | .activate now vehicle_id => (activate_vehicle st now vehicle_id).2
  | .deactivate now vehicle_id => (deactivate_vehicle st now vehicle_id).2
  | .delete vehicle_id => (delete_vehicle st vehicle_id).2

/-- Serve a sequence of mutating vehicle requests in order. -/
def runVehicleOps (st : VehiclesState) (ops : List VehicleOp) : VehiclesState :=
  ops.foldl (fun s op => op.run s) st

/-- A state of the vehicles router reachable from import time. -/
def VehiclesReachable (st : VehiclesState) : Prop :=
  ∃ ops : List VehicleOp, runVehicleOps initVehicles ops = st

/-! ### Concrete fixtures used by witnesses and counterexamples -/

/-- Number of fields set in an update request body: the size of
`model_dump(exclude_unset=True)`. -/
def SenderUpdate.suppliedCount (u : SenderUpdate) : Nat :=
  (if u.name.isSome then 1 else 0) + (if u.email.isSome then 1 else 0) +
  (if u.phone.isSome then 1 else 0) + (if u.address.isSome then 1 else 0) +
  (if u.is_active.isSome then 1 else 0)

/-- An update request body with no field set (`\x7b\x7d` on the wire). -/
def emptySenderUpdate : SenderUpdate := {}

/-- Create payload for a sender named A. -/
def senderA : SenderCreate := { name := "A", email := "a@x.com" }

/-- Create payload for a sender named B. -/
def senderB : SenderCreate := { name := "B", email := "b@y.com" }

/-- The record stored for `senderA` created at tick 0 in the fresh store. -/
def senderRecA : SenderRec :=
  { id := 1, created_at := 0, updated_at := 0, name := "A", email := "a@x.com",
    phone := none, address := none, is_active := true }

/-- The record stored for `senderB` created second, at tick 1. -/
def senderRecB : SenderRec :=
  { id := 2, created_at := 1, updated_at := 1, name := "B", email := "b@y.com",
    phone := none, address := none, is_active := true }

/-- State after creating `senderA` in the fresh store. -/
def stA : SendersState := (create_sender initSenders 0 senderA).2

/-- State after creating `senderA` then `senderB` in the fresh store. -/
def stAB : SendersState :=
  runSenderOps initSenders [.create 0 senderA, .create 1 senderB]

/-- Update request body setting only the name, to A2. -/
def updNameA2 : SenderUpdate := { name := some "A2" }

/-- The record for sender 1 after `updNameA2` is applied at tick 7. -/
def senderRecA2 : SenderRec :=
  { id := 1, created_at := 0, updated_at := 7, name := "A2", email := "a@x.com",
    phone := none, address := none, is_active := true }

/-- Vehicle create payload with plate ABC-1. -/
def vehicleA : VehicleCreate := { license_plate := "ABC-1" }

/-- Vehicle create payload with plate XYZ-2. -/
def vehicleB : VehicleCreate := { license_plate := "XYZ-2" }

/-- State after creating the two vehicles. -/
def stVehiclesAB : VehiclesState :=
  runVehicleOps initVehicles [.create 0 vehicleA, .create 1 vehicleB]

/-- PUT body supplying an explicitly empty license plate. -/
def emptyPlateUpdate : VehicleUpdate := { license_plate := some "" }

/-- Request sequence driving both vehicles to the same (empty) plate: two
creates with distinct plates, then an empty-plate update of each. -/
def c1Ops : List VehicleOp :=
  [.create 0 vehicleA, .create 1 vehicleB,
   .update 2 1 emptyPlateUpdate, .update 3 2 emptyPlateUpdate]

/-! ### Dict-model lemmas -/

/-- A successful lookup returns an entry of the list. -/
theorem dbLookup_mem {db : List (Nat × α)} {k : Nat} {v : α}
    (h : dbLookup db k = some v) : (k, v) ∈ db := by
  induction db with
  | nil => simp [dbLookup] at h
  | cons p rest ih =>
    by_cases hp : p.1 = k
    · rw [dbLookup, if_pos hp] at h
      injection h with h
      subst h
      subst hp
      exact List.mem_cons_self _ _
    · rw [dbLookup, if_neg hp] at h
      exact List.mem_cons_of_mem _ (ih h)

/-- After rewriting key `k` in place, looking `k` up finds the new value. -/
theorem dbLookup_dbReplace {db : List (Nat × α)} {k : Nat} (v : α)
    (h : (dbLookup db k).isSome) :
    dbLookup (dbReplace db k v) k = some v := by
  induction db with
  | nil => simp [dbLookup] at h
  | cons p rest ih =>
    by_cases hp : p.1 = k
    · simp [dbReplace, dbLookup, hp]
    · rw [dbLookup, if_neg hp] at h
      simpa [dbReplace, dbLookup, hp] using ih h

/-- Rewriting an entry value in place keeps the key sequence. -/
theorem dbReplace_map_fst (db : List (Nat × α)) (k : Nat) (v : α) :
    (dbReplace db k v).map Prod.fst = db.map Prod.fst := by
  simp [dbReplace, List.map_map]

/-- Every entry of `dbReplace db k v` is an original entry or carries the
new value under an original key equal to `k`. -/
theorem mem_dbReplace {db : List (Nat × α)} {k : Nat} {v : α} {q : Nat × α}
    (h : q ∈ dbReplace db k v) :
    q ∈ db ∨ (q.1 = k ∧ q.2 = v ∧ ∃ p ∈ db, p.1 = k) := by
  rcases List.mem_map.1 h with ⟨p, hp, hq⟩
  by_cases hk : p.1 = k
  · right
    subst hq
    exact ⟨hk, by simp [hk], p, hp, hk⟩
  · left
    subst hq
    simpa [hk] using hp

/-! ### Well-formedness of a senders state, preserved by every request -/

/-- Structural invariant of the senders store: the counter is at least 1,
every stored record carries its own key as `id`, keys are positive and
below the counter, and entries are strictly increasing in key (so the dict
iteration order of `senders_db` is ascending id order). -/
def SendersState.WF (st : SendersState) : Prop :=
  1 ≤ st.next_id ∧
  (∀ p ∈ st.senders_db, p.2.id = p.1 ∧ 1 ≤ p.1 ∧ p.1 < st.next_id) ∧
  List.Pairwise (fun p q : Nat × SenderRec => p.1 < q.1) st.senders_db

theorem wf_initSenders : initSenders.WF := by
  refine ⟨le_refl 1, ?_, ?_⟩ <;> simp [initSenders]

theorem wf_create_sender {st : SendersState} (now : Nat) (input : SenderCreate)
    (h : st.WF) : ((create_sender st now input).2).WF := by
  rcases h with ⟨h1, h2, h3⟩
  by_cases hc : ((st.senders_db.map Prod.snd).any fun ex => ex.email == input.email) = true
  · simpa [create_sender, hc] using ⟨h1, h2, h3⟩
  · simp only [create_sender, hc, if_false, Bool.false_eq_true]
    refine ⟨by dsimp only; omega, ?_, ?_⟩
    · intro p hp
      dsimp only at hp ⊢
      rcases List.mem_append.1 hp with hp | hp
      · obtain ⟨e1, e2, e3⟩ := h2 p hp
        exact ⟨e1, e2, by omega⟩
      · simp at hp
        subst hp
        exact ⟨rfl, h1, by omega⟩
    · dsimp only
      rw [List.pairwise_append]
      refine ⟨h3, by simp, ?_⟩
      intro p hp q hq
      simp at hq
      subst hq
      exact (h2 p hp).2.2

/-- Rewriting the value stored under a present key `k` with a record whose
`id` is `k` preserves well-formedness. -/
theorem wf_dbReplace_sender {st : SendersState} {k : Nat} {r' : SenderRec}
    (h : st.WF) (hid : r'.id = k) :
    SendersState.WF { st with senders_db := dbReplace st.senders_db k r' } := by
  rcases h with ⟨h1, h2, h3⟩
  refine ⟨h1, ?_, ?_⟩
  · intro q hq
    dsimp only at hq
    rcases mem_dbReplace hq with hq | ⟨e1, e2, p, hp, hpk⟩
    · exact h2 q hq
    · obtain ⟨f1, f2, f3⟩ := h2 p hp
      refine ⟨by rw [e2, hid, e1], ?_, ?_⟩ <;> rw [e1, ← hpk] <;> [exact f2; exact f3]
  · dsimp only
    unfold dbReplace
    rw [List.pairwise_map]
    exact h3

theorem wf_update_sender {st : SendersState} (now sender_id : Nat) (u : SenderUpdate)
    (h : st.WF) : ((update_sender st now sender_id u).2).WF := by
  rw [update_sender]
  split
  · exact h
  · next existing hlook =>
    split
    · exact h
    · split
      · exact h
      · dsimp only
        refine wf_dbReplace_sender h ?_
        have hmem := dbLookup_mem hlook
        have := (h.2.1 _ hmem).1
        exact this

theorem wf_activate_sender {st : SendersState} (now sender_id : Nat)
    (h : st.WF) : ((activate_sender st now sender_id).2).WF := by
  rw [activate_sender]
  split
  · exact h
  · next r hlook =>
    dsimp only
    refine wf_dbReplace_sender h ?_
    exact (h.2.1 _ (dbLookup_mem hlook)).1

theorem wf_deactivate_sender {st : SendersState} (now sender_id : Nat)
    (h : st.WF) : ((deactivate_sender st now sender_id).2).WF := by
  rw [deactivate_sender]
  split
  · exact h
  · next r hlook =>
    dsimp only
    refine wf_dbReplace_sender h ?_
    exact (h.2.1 _ (dbLookup_mem hlook)).1

theorem wf_delete_sender {st : SendersState} (sender_id : Nat)
    (h : st.WF) : ((delete_sender st sender_id).2).WF := by
  rcases h with ⟨h1, h2, h3⟩
  rw [delete_sender]
  split
  · exact ⟨h1, h2, h3⟩
  · refine ⟨h1, ?_, ?_⟩
    · intro p hp
      dsimp only at hp
      exact h2 p (List.mem_of_mem_filter hp)
    · exact h3.sublist (List.filter_sublist _)

/-- Every single request preserves well-formedness. -/
theorem wf_senderOp_run (op : SenderOp) (st : SendersState) (h : st.WF) :
    (op.run st).WF := by
  cases op with
  | create now input => exact wf_create_sender now input h
  | update now sender_id u => exact wf_update_sender now sender_id u h
  | activate now sender_id => exact wf_activate_sender now sender_id h
  | deactivate now sender_id => exact wf_deactivate_sender now sender_id h
  | delete sender_id => exact wf_delete_sender sender_id h

theorem wf_runSenderOps (ops : List SenderOp) (st : SendersState) (h : st.WF) :
    (runSenderOps st ops).WF := by
  induction ops generalizing st with
  | nil => exact h
  | cons op ops ih =>
    rw [runSenderOps, List.foldl_cons]
    exact ih _ (wf_senderOp_run op st h)

/-- Every reachable senders state is well-formed. -/
theorem wf_sendersReachable {st : SendersState} (h : SendersReachable st) : st.WF := by
  rcases h with ⟨ops, rfl⟩
  exact wf_runSenderOps ops initSenders wf_initSenders

/-- `next_id` never decreases across a request. -/
theorem nextId_mono_senderOp (op : SenderOp) (st : SendersState) :
    st.next_id ≤ (op.run st).next_id := by
  cases op <;>
    simp only [SenderOp.run, create_sender, update_sender, activate_sender,
      deactivate_sender, delete_sender] <;>
    (repeat' split) <;> dsimp only <;> omega

/-- In a well-formed state the dict values are strictly increasing in id,
i.e. dict iteration order is ascending id order. -/
theorem senders_values_sorted {st : SendersState} (h : st.WF) :
    List.Pairwise (fun a b : SenderRec => a.id < b.id) (st.senders_db.map Prod.snd) := by
  rcases h with ⟨-, h2, h3⟩
  rw [List.pairwise_map]
  refine h3.imp_of_mem ?_
  intro p q hp hq hlt
  rw [(h2 p hp).1, (h2 q hq).1]
  exact hlt

/-- The filtered listing is still strictly increasing in id. -/
theorem filteredSenders_sorted {st : SendersState} (h : st.WF) (act : Option Bool) :
    List.Pairwise (fun a b : SenderRec => a.id < b.id) (filteredSenders st act) := by
  have hs := senders_values_sorted h
  cases act with
  | none => exact hs
  | some b => exact hs.sublist (List.filter_sublist _)

/-- For nonnegative `skip` and `limit`, the Python slice
`l[skip : skip + limit]` is drop-then-take. -/
theorem pySlice_nonneg (l : List α) (skip limit : Int)
    (hs : 0 ≤ skip) (hl : 0 ≤ limit) :
    pySlice l skip (skip + limit) = (l.drop skip.toNat).take limit.toNat := by
  have hsl : 0 ≤ skip + limit := by omega
  rw [pySlice, pyIndex, pyIndex, if_neg (by omega), if_neg (by omega)]
  rw [Int.toNat_add hs hl]
  rcases le_or_lt skip.toNat l.length with hle | hlt
  · rw [min_eq_left hle]
    have : l.take (min (skip.toNat + limit.toNat) l.length) = l.take (skip.toNat + limit.toNat) := by
      rw [List.take_eq_take]
      omega
    rw [this, List.drop_take]
    congr 1
    omega
  · rw [min_eq_right (by omega)]
    have h1 : (l.take (min (skip.toNat + limit.toNat) l.length)).drop l.length = [] := by
      apply List.drop_eq_nil_of_le
      simp
    have h2 : (l.drop skip.toNat).take limit.toNat = [] := by
      have : l.drop skip.toNat = [] := List.drop_eq_nil_of_le (by omega)
      simp [this]
    rw [h1, h2]

/-- When `skip` reaches the length of the list, the Python slice is empty. -/
theorem pySlice_skip_past (l : List α) (skip limit : Int)
    (hs : 0 ≤ skip) (hlen : l.length ≤ skip.toNat) :
    pySlice l skip (skip + limit) = [] := by
  rw [pySlice, pyIndex, if_neg (by omega)]
  apply List.drop_eq_nil_of_le
  calc (l.take (pyIndex l.length (skip + limit))).length ≤ l.length := by
        simp [List.length_take]
    _ ≤ min skip.toNat l.length := by omega

/-! ### Claim theorems -/

/-- C1 (code_bug): the uniqueness invariant fails on the code.  The guard
`if vehicle_update.license_plate:` uses Python truthiness, so a PUT body
supplying an empty license plate skips the duplicate scan while the
`exclude_unset` merge still applies it.  After creating two vehicles with
distinct plates and updating each with an empty plate, the store holds two
distinct records (ids 1 and 2) with the same license_plate value. -/
theorem vehicles_uniqueness_violated :
    ((runVehicleOps initVehicles c1Ops).vehicles_db.map fun p => (p.1, p.2.license_plate))
      = [(1, ""), (2, "")] ∧
    ¬ ((runVehicleOps initVehicles c1Ops).vehicles_db.map fun p => p.2.license_plate).Nodup :=
  ⟨by decide, by decide⟩

/-- C2: ids are store-assigned, strictly increasing, and never reused: the
counter starts at 1, at every reachable state every stored id lies in
`[1, next_id)`, a successful Create assigns exactly `next_id` and then
advances the counter by one, and no request ever decreases the counter —
so successive Creates assign strictly increasing positive ids and a
deleted id (being below the counter) is never assigned again. -/
theorem create_sender_ids_monotonic (st : SendersState) (h : SendersReachable st)
    (now : Nat) (input : SenderCreate) (r : SenderRec) (st' : SendersState)
    (hc : create_sender st now input = (.ok r, st')) (op : SenderOp) :
    initSenders.next_id = 1 ∧
    1 ≤ st.next_id ∧
    (st.senders_db.all fun p => decide (1 ≤ p.1) && decide (p.1 < st.next_id)) = true ∧
    r.id = st.next_id ∧
    st'.next_id = st.next_id + 1 ∧
    st.next_id ≤ (op.run st).next_id := by
  obtain ⟨h1, h2, h3⟩ := wf_sendersReachable h
  have hmain : r.id = st.next_id ∧ st'.next_id = st.next_id + 1 := by
    rw [create_sender] at hc
    split at hc
    · simp at hc
    · simp only [Prod.mk.injEq, Except.ok.injEq] at hc
      obtain ⟨hr, hst⟩ := hc
      subst hr
      subst hst
      exact ⟨rfl, rfl⟩
  refine ⟨rfl, h1, ?_, hmain.1, hmain.2, nextId_mono_senderOp op st⟩
  rw [List.all_eq_true]
  intro p hp
  obtain ⟨-, e2, e3⟩ := h2 p hp
  simp only [Bool.and_eq_true, decide_eq_true_eq]
  exact ⟨e2, e3⟩

/-- C2 witness: in the fresh store the first create assigns id 1 and
advances the counter to 2; a delete request does not decrease it. -/
theorem create_sender_ids_monotonic_witness :
    initSenders.next_id = 1 ∧
    1 ≤ initSenders.next_id ∧
    (initSenders.senders_db.all fun p =>
      decide (1 ≤ p.1) && decide (p.1 < initSenders.next_id)) = true ∧
    senderRecA.id = initSenders.next_id ∧
    stA.next_id = initSenders.next_id + 1 ∧
    initSenders.next_id ≤ ((SenderOp.delete 1).run initSenders).next_id :=
  create_sender_ids_monotonic initSenders ⟨[], rfl⟩ 0 senderA senderRecA stA
    rfl (SenderOp.delete 1)

/-- C3: an Update that fails the duplicate-plate check (HTTP 400,
"License plate already exists") leaves the whole collection — state and
counter, hence also the targeted record and its `updated_at` — exactly as
it was before the call. -/
theorem update_vehicle_duplicate_unchanged (st : VehiclesState) (now vehicle_id : Nat)
    (u : VehicleUpdate)
    (h : (update_vehicle st now vehicle_id u).1
      = .error ⟨400, "License plate already exists"⟩) :
    (update_vehicle st now vehicle_id u).2 = st := by
  cases hlk : dbLookup st.vehicles_db vehicle_id with
  | none => simp [update_vehicle, hlk]
  | some existing =>
    by_cases hdup : vehicleDupPlate st vehicle_id u = true
    · simp [update_vehicle, hlk, hdup]
    · by_cases hemp : u.isEmpty = true
      · simp [update_vehicle, hlk, hdup, hemp]
      · simp [update_vehicle, hlk, hdup, hemp] at h

/-- C3 witness: updating vehicle 2's plate to vehicle 1's plate fails and
leaves the two-vehicle store unchanged. -/
theorem update_vehicle_duplicate_unchanged_witness :
    (update_vehicle stVehiclesAB 5 2 { license_plate := some "ABC-1" }).2 = stVehiclesAB :=
  update_vehicle_duplicate_unchanged stVehiclesAB 5 2 { license_plate := some "ABC-1" }
    rfl

/-- C4: a successful Update supplying exactly one schema field changes only
that field and `updated_at` (set to the call time): id and created_at keep
their pre-update values, every field absent from the body keeps its
pre-update value (`getD` collapses both cases: a set field gets the
supplied value, an unset field keeps the old one). -/
theorem update_sender_single_field_frame (st : SendersState) (now sender_id : Nat)
    (u : SenderUpdate) (r r' : SenderRec)
    (hr : dbLookup st.senders_db sender_id = some r)
    (hone : u.suppliedCount = 1)
    (hok : (update_sender st now sender_id u).1 = .ok r') :
    r'.id = r.id ∧ r'.created_at = r.created_at ∧ r'.updated_at = now ∧
    r'.name = u.name.getD r.name ∧ r'.email = u.email.getD r.email ∧
    r'.phone = u.phone.getD r.phone ∧ r'.address = u.address.getD r.address ∧
    r'.is_active = u.is_active.getD r.is_active := by
  have hemp : u.isEmpty = false := by
    rcases u with ⟨n, e, p, a, i⟩
    cases n <;> cases e <;> cases p <;> cases a <;> cases i <;>
      simp [SenderUpdate.suppliedCount, SenderUpdate.isEmpty] at hone ⊢
  by_cases hdup : senderDupEmail st sender_id u = true
  · simp [update_sender, hr, hdup] at hok
  · have hval : (update_sender st now sender_id u).1
        = .ok { applySenderUpdate r u with updated_at := now } := by
      simp [update_sender, hr, hdup, hemp]
    rw [hval] at hok
    simp only [Except.ok.injEq] at hok
    subst hok
    exact ⟨rfl, rfl, rfl, rfl, rfl, rfl, rfl, rfl⟩

/-- C4 witness: updating only the name of sender 1 in the two-sender store
keeps id, created_at, email, phone, address and is_active, sets the name,
and refreshes updated_at to the call tick. -/
theorem update_sender_single_field_frame_witness :
    senderRecA2.id = senderRecA.id ∧ senderRecA2.created_at = senderRecA.created_at ∧
    senderRecA2.updated_at = 7 ∧
    senderRecA2.name = updNameA2.name.getD senderRecA.name ∧
    senderRecA2.email = updNameA2.email.getD senderRecA.email ∧
    senderRecA2.phone = updNameA2.phone.getD senderRecA.phone ∧
    senderRecA2.address = updNameA2.address.getD senderRecA.address ∧
    senderRecA2.is_active = updNameA2.is_active.getD senderRecA.is_active :=
  update_sender_single_field_frame stAB 7 1 updNameA2 senderRecA senderRecA2
    (by decide) (by decide) rfl

/-- C5 (counterexample): creating a second sender with an already-stored
email fails with the constant message "Email already registered", which
names the field but does not contain the conflicting value "a@x.com" — the
claim that the error names both the field and the value is false. -/
theorem create_sender_duplicate_message_counterexample :
    (create_sender stAB 5 { name := "C", email := "a@x.com" }).1
      = .error ⟨400, "Email already registered"⟩ ∧
    ¬ List.IsInfix "a@x.com".toList "Email already registered".toList :=
  ⟨rfl, by decide⟩

/-- C5 (amended): a Create whose email equals a stored record's email fails
with HTTP 400 and the field-naming message "Email already registered", and
returns the state unchanged — no record added, counter not advanced. -/
theorem create_sender_duplicate_fails (st : SendersState) (now : Nat)
    (input : SenderCreate)
    (hdup : ((st.senders_db.map Prod.snd).any fun ex => ex.email == input.email) = true) :
    create_sender st now input = (.error ⟨400, "Email already registered"⟩, st) := by
  simp [create_sender, hdup]

/-- C5 witness: the duplicate create against the two-sender store fails and
leaves the state unchanged. -/
theorem create_sender_duplicate_fails_witness :
    create_sender stAB 5 { name := "C", email := "a@x.com" }
      = (.error ⟨400, "Email already registered"⟩, stAB) :=
  create_sender_duplicate_fails stAB 5 { name := "C", email := "a@x.com" } (by decide)

/-- C6 (counterexample): `skip = -1` does not fail with InvalidArgument —
the handler has no range check and Python slicing interprets the negative
index from the end of the list, so listing the two-sender store with
`skip = -1, limit = 100` returns the last record. -/
theorem get_senders_negative_skip_counterexample :
    get_senders stAB (-1) 100 none = .ok [senderRecB] := rfl

/-- C6 (amended): List never fails — for any skip and limit (negative ones
included) it returns the Python slice of the filtered sequence — and for
nonnegative skip at or past the number of matching records it returns the
empty sequence. -/
theorem get_senders_pagination (st : SendersState) (skip limit : Int)
    (act : Option Bool) :
    get_senders st skip limit act
      = .ok (pySlice (filteredSenders st act) skip (skip + limit)) ∧
    (0 ≤ skip → (filteredSenders st act).length ≤ skip.toNat →
      get_senders st skip limit act = .ok []) := by
  refine ⟨rfl, fun hs hlen => ?_⟩
  rw [get_senders, pySlice_skip_past _ _ _ hs hlen]

/-- C6 witness: skipping past the two stored senders yields the empty
sequence, not an error. -/
theorem get_senders_pagination_witness :
    get_senders stAB 5 100 none = .ok [] :=
  (get_senders_pagination stAB 5 100 none).2 (by decide) (by decide)

/-- C7: at every reachable state the listing order is strictly ascending in
id (dict insertion order coincides with id order), and for nonnegative skip
and limit the returned sequence is exactly the contiguous slice
`drop skip, take limit` of the is_active-filtered, id-ordered sequence —
the filter is applied to the whole collection before pagination. -/
theorem get_senders_ordered (st : SendersState) (h : SendersReachable st)
    (skip limit : Int) (hs : 0 ≤ skip) (hl : 0 ≤ limit) (act : Option Bool) :
    List.Pairwise (fun a b : SenderRec => a.id < b.id) (filteredSenders st act) ∧
    get_senders st skip limit act
      = .ok (((filteredSenders st act).drop skip.toNat).take limit.toNat) := by
  refine ⟨filteredSenders_sorted (wf_sendersReachable h) act, ?_⟩
  rw [get_senders, pySlice_nonneg _ _ _ hs hl]

/-- C7 witness: in the reachable two-sender store, listing with skip 1 and
limit 1 returns the slice after the first record of the id-ordered
sequence. -/
theorem get_senders_ordered_witness :
    List.Pairwise (fun a b : SenderRec => a.id < b.id) (filteredSenders stAB none) ∧
    get_senders stAB 1 1 none
      = .ok (((filteredSenders stAB none).drop (1 : Int).toNat).take (1 : Int).toNat) :=
  get_senders_ordered stAB ⟨[.create 0 senderA, .create 1 senderB], rfl⟩ 1 1
    (by decide) (by decide) none

/-- C8 (counterexample): the create payload can set `is_active` — it is a
schema field of `SenderCreate` with default True — so a uniqueness-passing
Create with `is_active: false` stores and returns a record with
`is_active = false`, refuting "is_active = true unless the schema default
overrides it". -/
theorem create_sender_is_active_counterexample :
    (create_sender initSenders 0 { name := "A", email := "a@x.com", is_active := false }).1
      = .ok { id := 1, created_at := 0, updated_at := 0, name := "A", email := "a@x.com",
              phone := none, address := none, is_active := false } := rfl

/-- C8 (amended): a successful Create stores and returns a record with
`created_at = updated_at =` the creation tick, every schema field copied
from the input — `is_active` included, so it equals the input's value,
which defaults to true only when the caller omits it — while `id`,
`created_at` and `updated_at` are store-assigned regardless of the input
(the payload has no such fields), and the record is appended under the
current counter which then advances. -/
theorem create_sender_success_fields (st : SendersState) (now : Nat)
    (input : SenderCreate) (r : SenderRec) (st' : SendersState)
    (hc : create_sender st now input = (.ok r, st')) :
    r.id = st.next_id ∧ r.created_at = now ∧ r.updated_at = now ∧
    r.name = input.name ∧ r.email = input.email ∧ r.phone = input.phone ∧
    r.address = input.address ∧ r.is_active = input.is_active ∧
    st'.senders_db = st.senders_db ++ [(st.next_id, r)] ∧
    st'.next_id = st.next_id + 1 := by
  rw [create_sender] at hc
  split at hc
  · simp at hc
  · simp only [Prod.mk.injEq, Except.ok.injEq] at hc
    obtain ⟨hr, hst⟩ := hc
    subst hr
    subst hst
    exact ⟨rfl, rfl, rfl, rfl, rfl, rfl, rfl, rfl, rfl, rfl⟩

/-- C8 witness: the first create in the fresh store stores `senderRecA`
with both timestamps equal to the creation tick and the input's fields. -/
theorem create_sender_success_fields_witness :
    senderRecA.id = initSenders.next_id ∧ senderRecA.created_at = 0 ∧
    senderRecA.updated_at = 0 ∧
    senderRecA.name = senderA.name ∧ senderRecA.email = senderA.email ∧
    senderRecA.phone = senderA.phone ∧ senderRecA.address = senderA.address ∧
    senderRecA.is_active = senderA.is_active ∧
    stA.senders_db = initSenders.senders_db ++ [(initSenders.next_id, senderRecA)] ∧
    stA.next_id = initSenders.next_id + 1 :=
  create_sender_success_fields initSenders 0 senderA senderRecA stA rfl

/-- C9: for a stored record, Activate succeeds twice in a row, both results
have `is_active = true`, no schema field (name, email, phone, address) nor
id or created_at changes either time, and `updated_at` is refreshed to each
call's tick; symmetrically Deactivate with `is_active = false`. -/
theorem activate_sender_idempotent (st : SendersState) (now1 now2 sender_id : Nat)
    (r : SenderRec) (hr : dbLookup st.senders_db sender_id = some r) :
    (activate_sender st now1 sender_id).1
      = .ok { r with is_active := true, updated_at := now1 } ∧
    (activate_sender (activate_sender st now1 sender_id).2 now2 sender_id).1
      = .ok { r with is_active := true, updated_at := now2 } ∧
    (deactivate_sender st now1 sender_id).1
      = .ok { r with is_active := false, updated_at := now1 } ∧
    (deactivate_sender (deactivate_sender st now1 sender_id).2 now2 sender_id).1
      = .ok { r with is_active := false, updated_at := now2 } := by
  have hsome : (dbLookup st.senders_db sender_id).isSome := by rw [hr]; rfl
  have ha1 : activate_sender st now1 sender_id
      = (.ok { r with is_active := true, updated_at := now1 },
         { st with senders_db :=
                     dbReplace st.senders_db sender_id
                       ({ r with is_active := true, updated_at := now1 }) }) := by
    simp [activate_sender, hr]
  have hd1 : deactivate_sender st now1 sender_id
      = (.ok { r with is_active := false, updated_at := now1 },
         { st with senders_db :=
                     dbReplace st.senders_db sender_id
                       ({ r with is_active := false, updated_at := now1 }) }) := by
    simp [deactivate_sender, hr]
  refine ⟨by rw [ha1], ?_, by rw [hd1], ?_⟩
  · rw [ha1]
    simp [activate_sender, dbLookup_dbReplace _ hsome]
  · rw [hd1]
    simp [deactivate_sender, dbLookup_dbReplace _ hsome]

/-- C9 witness: activating then re-activating (and deactivating then
re-deactivating) sender 1 of the two-sender store succeeds with the stated
results. -/
theorem activate_sender_idempotent_witness :
    (activate_sender stAB 3 1).1
      = .ok { senderRecA with is_active := true, updated_at := 3 } ∧
    (activate_sender (activate_sender stAB 3 1).2 4 1).1
      = .ok { senderRecA with is_active := true, updated_at := 4 } ∧
    (deactivate_sender stAB 3 1).1
      = .ok { senderRecA with is_active := false, updated_at := 3 } ∧
    (deactivate_sender (deactivate_sender stAB 3 1).2 4 1).1
      = .ok { senderRecA with is_active := false, updated_at := 4 } :=
  activate_sender_idempotent stAB 3 4 1 senderRecA (by decide)

/-- C10: an Update whose body sets no field succeeds on a stored record and
returns the record with every field unchanged — `updated_at` included,
since the `if update_data:` guard skips both the merge and the timestamp
refresh — and leaves the state unchanged. -/
theorem update_sender_empty_input (st : SendersState) (now sender_id : Nat)
    (r : SenderRec) (hr : dbLookup st.senders_db sender_id = some r) :
    update_sender st now sender_id emptySenderUpdate = (.ok r, st) := by
  simp [update_sender, hr, senderDupEmail, emptySenderUpdate, SenderUpdate.isEmpty]

/-- C10 witness: the empty-body update of sender 1 at a later tick returns
the record exactly as stored (updated_at still 0) and leaves the state
unchanged. -/
theorem update_sender_empty_input_witness :
    update_sender stAB 9 1 emptySenderUpdate = (.ok senderRecA, stAB) :=
  update_sender_empty_input stAB 9 1 senderRecA (by decide)
